import Mathlib

/-!
Verification of the PatentEvalAIAgent scoring pipeline.

The definitions below are a shallow embedding of the deterministic scoring
code of the repository:

* `src/config/weights.py` — weight sets, grade thresholds, `calculate_grade`;
* `src/agents/tech_agent.py` — claim-series extraction and the Technology
  quantitative scorer (X7/X8/X9 step curves);
* `src/agents/rights_agent.py` — independent/dependent claim classification
  and the Rights quantitative scorer (X1–X6);
* `src/agents/market_agent.py` — the inventor metric (X10), the offline part
  of the web-search grading, and the Market quantitative scorer;
* `src/main.py` — the category blend ratios of the three `evaluate_*`
  methods and the overall score of `evaluate_patent`.

Python numbers are modelled as `ℚ`; Python `round(x, 1)` is modelled as
round-half-to-even on tenths (`round1`); Python string containment
(`pat in s`) is modelled by `str_contains` over the character lists.
-/

namespace PatentEval

/-- Does the character list `s` start with the character list `pat`? -/
def starts_list : List Char → List Char → Bool
  | _, [] => true
  | [], _ :: _ => false
  | a :: s, b :: pat => (a = b) && starts_list s pat

/-- Does the character list `s` contain `pat` as a contiguous sublist? -/
def has_sub (pat : List Char) : List Char → Bool
  | [] => pat.isEmpty
  | a :: t => starts_list (a :: t) pat || has_sub pat t

/-- Python's substring test `pat in s`. -/
def str_contains (s pat : String) : Bool :=
  has_sub pat.toList s.toList

/-- The dependency-phrase markers of `RightsAgent._classify_claims` and
`TechnologyAgent._classify_independent_claims` (`dependent_patterns`). -/
def dependent_phrases : List String :=
  ["제", "항에", "있어서", "청구항", "또는", "내지"]

/-- The heuristic marking a claim as dependent:
`any(pattern in claim[:50] for pattern in dependent_patterns)`. -/
def is_dependent_claim (claim : String) : Bool :=
  dependent_phrases.any (fun p => str_contains (claim.take 50) p)

/-- Embedding of `RightsAgent._classify_claims`: split the claims into
(independent, dependent); if the heuristic marked every claim dependent and
the list is non-empty, force the first claim independent. -/
def classify_claims (claims : List String) : List String × List String :=
  let independent := claims.filter (fun c => !is_dependent_claim c)
  let dependent := claims.filter (fun c => is_dependent_claim c)
  if independent.isEmpty && !claims.isEmpty then
    (claims.take 1, claims.drop 1)
  else
    (independent, dependent)

/-- Embedding of `TechnologyAgent._classify_independent_claims`: the independent claims,
falling back to `claims[:1]` when the heuristic marked everything dependent. -/
def classify_independent_claims (claims : List String) : List String :=
  let independent := claims.filter (fun c => !is_dependent_claim c)
  if independent.isEmpty then claims.take 1 else independent

/-- Top-level category weights `EVALUATION_WEIGHTS` / `RE_EVALUATION_WEIGHTS`
of `src/config/weights.py`. -/
structure Weights where
  technology : ℚ
  rights : ℚ
  market : ℚ

/-- Normal weights `EVALUATION_WEIGHTS = {technology: 0.45, rights: 0.35, market: 0.20}`. -/
def EVALUATION_WEIGHTS : Weights := ⟨45/100, 35/100, 20/100⟩

/-- Re-evaluation weights `RE_EVALUATION_WEIGHTS = {technology: 0.50, rights: 0.35, market: 0.15}`.
Defined in `src/config/weights.py` (and re-exported by `src/config/__init__.py`)
but never applied by any caller in the repository. -/
def RE_EVALUATION_WEIGHTS : Weights := ⟨50/100, 35/100, 15/100⟩

/-- Threshold `RE_EVAL_THRESHOLD = 55` of `src/config/weights.py`. -/
def RE_EVAL_THRESHOLD : ℚ := 55

/-- Grade table `GRADE_THRESHOLDS` of `src/config/weights.py`, in source order. -/
def GRADE_THRESHOLDS : List (String × ℚ) :=
  [("AAA", 90), ("AA", 85), ("A", 80), ("BBB", 75), ("BB", 70),
   ("B", 65), ("CCC", 60), ("CC", 57), ("C", 55), ("미달", 0)]

/-- The loop of `calculate_grade`: return the first grade whose threshold
the score meets. -/
def grade_of (score : ℚ) : List (String × ℚ) → String
  | [] => "미달"
  | (g, t) :: rest => if t ≤ score then g else grade_of score rest

/-- Embedding of `calculate_grade` of `src/config/weights.py`. -/
def calculate_grade (score : ℚ) : String :=
  grade_of score GRADE_THRESHOLDS

/-- Round half to even on an exact rational (Python's `round` on ties). -/
def round_half_even (q : ℚ) : ℤ :=
  if q - ⌊q⌋ < 1/2 then ⌊q⌋
  else if 1/2 < q - ⌊q⌋ then ⌊q⌋ + 1
  else if ⌊q⌋ % 2 = 0 then ⌊q⌋ else ⌊q⌋ + 1

/-- Python's `round(x, 1)`. -/
def round1 (q : ℚ) : ℚ :=
  (round_half_even (q * 10) : ℚ) / 10

/-- X7 drawing-count curve of `TechnologyAgent._calculate_quantitative_score`. -/
def drawing_score (n : ℕ) : ℚ :=
  if n ≥ 10 then 100 else if n ≥ 5 then 75 else if n ≥ 3 then 60
  else if n ≥ 1 then 40 else 0

/-- X8 title-length curve of `TechnologyAgent._calculate_quantitative_score`. -/
def title_score (len : ℕ) : ℚ :=
  if 20 ≤ len ∧ len ≤ 80 then 100
  else if 10 ≤ len ∧ len ≤ 100 then 70
  else if len > 0 then 40 else 0

/-- X9 claim-series curve of `TechnologyAgent._calculate_quantitative_score`. -/
def series_score (n : ℕ) : ℚ :=
  if n ≥ 3 then 100 else if n ≥ 2 then 70 else if n ≥ 1 then 40 else 0

/-- Technology `quantitativeTotal`:
`round(drawing*0.4 + title*0.3 + series*0.3, 1)`. -/
def tech_quant_total (d t s : ℕ) : ℚ :=
  round1 (drawing_score d * (4/10) + title_score t * (3/10) +
    series_score s * (3/10))

/-- X1 IPC-count curve of `RightsAgent._calculate_quantitative_score`. -/
def ipc_score (n : ℕ) : ℚ :=
  if n ≥ 10 then 100 else if n ≥ 5 then 75 else if n ≥ 2 then 60
  else if n ≥ 1 then 40 else 0

/-- X4 total-claims curve of `RightsAgent._calculate_quantitative_score`. -/
def claims_count_score (n : ℕ) : ℚ :=
  if n ≥ 30 then 100 else if n ≥ 20 then 80 else if n ≥ 10 then 60
  else if n ≥ 5 then 40 else 20

/-- X5 independent-average-length curve of
`RightsAgent._calculate_quantitative_score`. -/
def claims_length_score (len : ℚ) : ℚ :=
  if len ≥ 200 then 100 else if len ≥ 100 then 70 else if len ≥ 50 then 40
  else 20

/-- Hierarchy (dependent/independent ratio) curve of
`RightsAgent._calculate_quantitative_score`; the `else 0` branch is the
defensive independent-count-zero case. -/
def hierarchy_score (indep dep : ℕ) : ℚ :=
  if indep > 0 then
    if (dep : ℚ) / (indep : ℚ) ≥ 5 then 100
    else if (dep : ℚ) / (indep : ℚ) ≥ 3 then 75
    else if (dep : ℚ) / (indep : ℚ) ≥ 1 then 50
    else 30
  else 0

/-- Rights `quantitativeTotal`:
`round(ipc*0.25 + claimsCount*0.30 + length*0.25 + hierarchy*0.20, 1)`. -/
def rights_quant_total (ipc total_claims : ℕ) (indep_avg_len : ℚ)
    (indep dep : ℕ) : ℚ :=
  round1 (ipc_score ipc * (25/100) + claims_count_score total_claims * (30/100) +
    claims_length_score indep_avg_len * (25/100) +
    hierarchy_score indep dep * (20/100))

/-- X10 inventor-count curve of `MarketAgent._calculate_quantitative_score`. -/
def inventor_score (n : ℕ) : ℚ :=
  if n ≥ 8 then 100 else if n ≥ 5 then 80 else if n ≥ 2 then 60
  else if n ≥ 1 then 40 else 0

/-- Applicant market-position curve of
`MarketAgent._calculate_quantitative_score`. -/
def applicant_score (grade : String) : ℚ :=
  if grade = "Major" then 100 else if grade = "Medium" then 70
  else if grade = "Small" then 40 else 20

/-- Technology-field growth curve of
`MarketAgent._calculate_quantitative_score`. -/
def tech_field_score (grade : String) : ℚ :=
  if grade = "High" then 100 else if grade = "Medium" then 70
  else if grade = "Low" then 40 else 20

/-- Market `quantitativeTotal`:
`round(inventor*0.30 + applicant*0.40 + techField*0.30, 1)`. -/
def market_quant_total (inv : ℕ) (applicant_grade tech_grade : String) : ℚ :=
  round1 (inventor_score inv * (30/100) +
    applicant_score applicant_grade * (40/100) +
    tech_field_score tech_grade * (30/100))

/-- The extracted document fields the deterministic scorers read
(`patent_info` entries; a missing field is its empty default). -/
structure PatentInfo where
  title : String
  claims : List String
  claims_count : ℕ
  drawing_count : ℕ
  ipc_codes : List String
  inventors : List String
  applicant : String

/-- A record with zero claims, zero IPC codes, zero drawings, empty title,
empty inventors and empty applicant. -/
def empty_patent : PatentInfo :=
  { title := "", claims := [], claims_count := 0, drawing_count := 0,
    ipc_codes := [], inventors := [], applicant := "" }

/-- Embedding of `MarketAgent._calculate_quantitative_metrics`:
`X10_inventor_count = len(patent_info.get('inventors', []))`. -/
def market_X10 (p : PatentInfo) : ℕ :=
  p.inventors.length

/-- Major-company markers of `MarketAgent._web_search`. -/
def major_companies : List String :=
  ["삼성", "samsung", "lg", "엘지", "현대", "hyundai",
   "sk", "네이버", "naver", "카카오", "kakao",
   "한화", "hanwha", "포스코", "posco", "롯데", "lotte"]

/-- Growth-field IPC markers of `MarketAgent._web_search`. -/
def growing_ipc : List String :=
  ["G06N", "G06F16", "G06Q", "H04L", "H01L", "C12N", "A61K"]

/-- The applicant branch of `MarketAgent._web_search` with the outcome of the
remote DuckDuckGo call abstracted as `ddg` (`none`: no search result). The
grade stays `"Unknown"` when the applicant is empty or `"N/A"`; a
major-company applicant is graded `"Major"` without any remote call. -/
def web_search_applicant_grade (applicant : String) (ddg : Option String) :
    String :=
  if applicant ≠ "" ∧ applicant ≠ "N/A" then
    if major_companies.any (fun c => str_contains applicant.toLower c) then
      "Major"
    else
      match ddg with
      | some g => g
      | none => "Unknown"
  else "Unknown"

/-- The IPC branch of `MarketAgent._web_search` with the remote call
abstracted as `ddg`. The grade stays `"Unknown"` when there are no IPC codes;
a growth-field main IPC is graded `"High"` without any remote call. -/
def web_search_tech_grade (ipc_codes : List String) (ddg : Option String) :
    String :=
  match ipc_codes with
  | [] => "Unknown"
  | c :: _ =>
    let main_ipc := (c.splitOn "/").headD ""
    if growing_ipc.any (fun g => main_ipc.startsWith g) then "High"
    else
      match ddg with
      | some g => g
      | none => "Unknown"

/-- Technology quantitative total computed from a record
(`TechnologyAgent._calculate_quantitative_metrics` feeding
`_calculate_quantitative_score`). -/
def tech_agent_quant (p : PatentInfo) : ℚ :=
  tech_quant_total p.drawing_count p.title.length
    (classify_independent_claims p.claims).length

/-- Independent-claim average character length
(`X5_independent_avg_length` before the 1-decimal rounding). -/
def independent_avg_length (independent : List String) : ℚ :=
  if independent.isEmpty then 0
  else ((independent.map String.length).sum : ℚ) / (independent.length : ℚ)

/-- Rights quantitative total computed from a record
(`RightsAgent._calculate_quantitative_metrics` feeding
`_calculate_quantitative_score`; `X4` comes from the `claims_count` field). -/
def rights_agent_quant (p : PatentInfo) : ℚ :=
  rights_quant_total p.ipc_codes.length p.claims_count
    (round1 (independent_avg_length (classify_claims p.claims).1))
    (classify_claims p.claims).1.length (classify_claims p.claims).2.length

/-- Market quantitative total computed from a record and the two web-search
grades (`MarketAgent.evaluate`, steps 1–4). -/
def market_agent_quant (p : PatentInfo) (applicant_grade tech_grade : String) :
    ℚ :=
  market_quant_total (market_X10 p) applicant_grade tech_grade

/-- Technology blend of `TechnologyAgent.evaluate` (step 5):
`quant*0.6 + qual*0.4`. -/
def agent_tech_final (quant qual : ℚ) : ℚ :=
  quant * (6/10) + qual * (4/10)

/-- Rights blend of `RightsAgent.evaluate` (step 5): `quant*0.7 + qual*0.3`. -/
def agent_rights_final (quant qual : ℚ) : ℚ :=
  quant * (7/10) + qual * (3/10)

/-- Market blend of `MarketAgent.evaluate` (step 6): `quant*0.7 + qual*0.3`. -/
def agent_market_final (quant qual : ℚ) : ℚ :=
  quant * (7/10) + qual * (3/10)

/-- Technology blend of `PatentEvaluationSystem.evaluate_technology`
(`src/main.py`): `quant*0.6 + qual*0.4`. -/
def main_tech_final (quant qual : ℚ) : ℚ :=
  quant * (6/10) + qual * (4/10)

/-- Rights blend of `PatentEvaluationSystem.evaluate_rights`
(`src/main.py`): `quant*0.7 + qual*0.3`. -/
def main_rights_final (quant qual : ℚ) : ℚ :=
  quant * (7/10) + qual * (3/10)

/-- Market blend of `PatentEvaluationSystem.evaluate_market`
(`src/main.py`): `quant*0.3 + qual*0.7`. -/
def main_market_final (quant qual : ℚ) : ℚ :=
  quant * (3/10) + qual * (7/10)

/-- Weighted overall score over a weight set. -/
def overall_score (w : Weights) (tech rights market : ℚ) : ℚ :=
  tech * w.technology + rights * w.rights + market * w.market

/-- Overall score of `PatentEvaluationSystem.evaluate_patent`: the normal
weight set is always used; no second pass exists in the code. -/
def evaluate_patent_overall (tech rights market : ℚ) : ℚ :=
  overall_score EVALUATION_WEIGHTS tech rights market

/-- Grade reported by `PatentEvaluationSystem.evaluate_patent`. -/
def evaluate_patent_grade (tech rights market : ℚ) : String :=
  calculate_grade (evaluate_patent_overall tech rights market)

set_option maxRecDepth 8000
set_option maxHeartbeats 1600000

/-! ### Helper lemmas -/

lemma round_half_even_ge (q : ℚ) (n : ℤ) (h : (n : ℚ) ≤ q) :
    n ≤ round_half_even q := by
  have hf : n ≤ ⌊q⌋ := Int.le_floor.mpr h
  unfold round_half_even
  split_ifs <;> omega

lemma round_half_even_le (q : ℚ) (n : ℤ) (h : q ≤ (n : ℚ)) :
    round_half_even q ≤ n := by
  have hf : ⌊q⌋ ≤ n := by
    have := Int.floor_le_floor h
    simpa using this
  unfold round_half_even
  split_ifs with h1 h2
  · exact hf
  · have hq : (⌊q⌋ : ℚ) + 1/2 < q := by linarith
    have hlt : (⌊q⌋ : ℚ) < (n : ℚ) := by linarith
    have : ⌊q⌋ < n := by exact_mod_cast hlt
    omega
  · exact hf
  · push_neg at h1
    have hq : (⌊q⌋ : ℚ) + 1/2 ≤ q := by linarith
    have hlt : (⌊q⌋ : ℚ) < (n : ℚ) := by linarith
    have : ⌊q⌋ < n := by exact_mod_cast hlt
    omega

lemma round1_ge (q : ℚ) (n : ℤ) (h : (n : ℚ) ≤ q) : (n : ℚ) ≤ round1 q := by
  have h10 : ((10 * n : ℤ) : ℚ) ≤ q * 10 := by push_cast; linarith
  have := round_half_even_ge (q * 10) (10 * n) h10
  have hc : ((10 * n : ℤ) : ℚ) ≤ (round_half_even (q * 10) : ℚ) := by
    exact_mod_cast this
  unfold round1
  push_cast at hc
  linarith

lemma round1_le (q : ℚ) (n : ℤ) (h : q ≤ (n : ℚ)) : round1 q ≤ (n : ℚ) := by
  have h10 : q * 10 ≤ ((10 * n : ℤ) : ℚ) := by push_cast; linarith
  have := round_half_even_le (q * 10) (10 * n) h10
  have hc : (round_half_even (q * 10) : ℚ) ≤ ((10 * n : ℤ) : ℚ) := by
    exact_mod_cast this
  unfold round1
  push_cast at hc
  linarith

lemma drawing_score_mem (n : ℕ) : 0 ≤ drawing_score n ∧ drawing_score n ≤ 100 := by
  unfold drawing_score; split_ifs <;> norm_num

lemma title_score_mem (n : ℕ) : 0 ≤ title_score n ∧ title_score n ≤ 100 := by
  unfold title_score; split_ifs <;> norm_num

lemma series_score_mem (n : ℕ) : 0 ≤ series_score n ∧ series_score n ≤ 100 := by
  unfold series_score; split_ifs <;> norm_num

lemma ipc_score_mem (n : ℕ) : 0 ≤ ipc_score n ∧ ipc_score n ≤ 100 := by
  unfold ipc_score; split_ifs <;> norm_num

lemma claims_count_score_mem (n : ℕ) :
    20 ≤ claims_count_score n ∧ claims_count_score n ≤ 100 := by
  unfold claims_count_score; split_ifs <;> norm_num

lemma claims_length_score_mem (q : ℚ) :
    20 ≤ claims_length_score q ∧ claims_length_score q ≤ 100 := by
  unfold claims_length_score; split_ifs <;> norm_num

lemma hierarchy_score_mem (i d : ℕ) :
    0 ≤ hierarchy_score i d ∧ hierarchy_score i d ≤ 100 := by
  unfold hierarchy_score; split_ifs <;> norm_num

lemma hierarchy_score_pos_lb (i d : ℕ) (h : 0 < i) :
    30 ≤ hierarchy_score i d := by
  unfold hierarchy_score
  split_ifs <;> norm_num

lemma inventor_score_mem (n : ℕ) :
    0 ≤ inventor_score n ∧ inventor_score n ≤ 100 := by
  unfold inventor_score; split_ifs <;> norm_num

lemma applicant_score_mem (g : String) :
    20 ≤ applicant_score g ∧ applicant_score g ≤ 100 := by
  unfold applicant_score; split_ifs <;> norm_num

lemma tech_field_score_mem (g : String) :
    20 ≤ tech_field_score g ∧ tech_field_score g ≤ 100 := by
  unfold tech_field_score; split_ifs <;> norm_num

lemma rights_quant_total_ge_11 (ipc tc : ℕ) (len : ℚ) (i d : ℕ) :
    11 ≤ rights_quant_total ipc tc len i d := by
  have h1 := (ipc_score_mem ipc).1
  have h2 := (claims_count_score_mem tc).1
  have h3 := (claims_length_score_mem len).1
  have h4 := (hierarchy_score_mem i d).1
  unfold rights_quant_total
  have : (11 : ℚ) ≤ ipc_score ipc * (25/100) + claims_count_score tc * (30/100) +
      claims_length_score len * (25/100) + hierarchy_score i d * (20/100) := by
    linarith
  have := round1_ge _ 11 this
  exact_mod_cast this

lemma classify_claims_perm (claims : List String) :
    ((classify_claims claims).1 ++ (classify_claims claims).2).Perm claims := by
  unfold classify_claims
  by_cases h : ((claims.filter fun c => !is_dependent_claim c).isEmpty &&
      !claims.isEmpty) = true
  · simp only [h, if_true]
    rw [List.take_append_drop]
  · simp only [h, if_false, Bool.false_eq_true]
    have hp := List.filter_append_perm (fun c => !is_dependent_claim c) claims
    simpa [Bool.not_not] using hp

lemma classify_claims_fst_ne_nil (claims : List String) (h : claims ≠ []) :
    (classify_claims claims).1 ≠ [] := by
  unfold classify_claims
  by_cases hb : (claims.filter fun c => !is_dependent_claim c).isEmpty
  · have hc : claims.isEmpty = false := by
      cases claims with
      | nil => exact absurd rfl h
      | cons a t => rfl
    simp only [hb, hc, Bool.not_false, Bool.and_true, if_true]
    cases claims with
    | nil => exact absurd rfl h
    | cons a t => simp
  · have hb' : ((claims.filter fun c => !is_dependent_claim c).isEmpty &&
        !claims.isEmpty) = false := by
      rw [Bool.and_eq_false_iff]
      left
      simpa using hb
    simp only [hb', if_false, Bool.false_eq_true]
    simpa [List.isEmpty_iff] using hb

lemma classify_claims_all_dependent (claims : List String) (h : claims ≠ [])
    (hall : ∀ c ∈ claims, is_dependent_claim c = true) :
    classify_claims claims = (claims.take 1, claims.drop 1) := by
  have hf : claims.filter (fun c => !is_dependent_claim c) = [] := by
    rw [List.filter_eq_nil_iff]
    intro a ha
    simp [hall a ha]
  have hc : claims.isEmpty = false := by
    cases claims with
    | nil => exact absurd rfl h
    | cons a t => rfl
  unfold classify_claims
  simp [hf, hc]

/-! ### Claims -/

/-- C2: the grade function checks the threshold table in descending order and
returns the first grade whose lower bound the score meets (≥90 AAA, ≥85 AA,
≥80 A, ≥75 BBB, ≥70 BB, ≥65 B, ≥60 CCC, ≥57 CC, ≥55 C, otherwise 미달);
in particular 90.0 ↦ AAA, 89.9 ↦ AA, 55.0 ↦ C, 54.9 ↦ 미달. -/
theorem C2_grade_table (score : ℚ) :
    calculate_grade score =
      (if 90 ≤ score then "AAA" else if 85 ≤ score then "AA"
       else if 80 ≤ score then "A" else if 75 ≤ score then "BBB"
       else if 70 ≤ score then "BB" else if 65 ≤ score then "B"
       else if 60 ≤ score then "CCC" else if 57 ≤ score then "CC"
       else if 55 ≤ score then "C" else "미달") ∧
    calculate_grade 90 = "AAA" ∧ calculate_grade (899/10) = "AA" ∧
    calculate_grade 55 = "C" ∧ calculate_grade (549/10) = "미달" := by
  refine ⟨?_, ?_, ?_, ?_, ?_⟩
  · simp only [calculate_grade, GRADE_THRESHOLDS, grade_of]
    split_ifs with h1 h2 h3 h4 h5 h6 h7 h8 h9 h10 <;> rfl
  · norm_num [calculate_grade, GRADE_THRESHOLDS, grade_of]
  · norm_num [calculate_grade, GRADE_THRESHOLDS, grade_of]
  · norm_num [calculate_grade, GRADE_THRESHOLDS, grade_of]
  · norm_num [calculate_grade, GRADE_THRESHOLDS, grade_of]

/-- C3 counterexample: for tech=80, rights=40, market=20 the overall score
under the normal weights is 54 (not 50, as the claim computes), the code
reports the grade of the normal-weight score — 미달, not C — and the
re-evaluation weight set, which no code path applies, would give 57, whose
grade is CC (the CC lower bound is 57), not C. -/
theorem C3_counterexample :
    evaluate_patent_overall 80 40 20 = 54 ∧
    ¬ evaluate_patent_overall 80 40 20 = 50 ∧
    evaluate_patent_grade 80 40 20 = "미달" ∧
    ¬ evaluate_patent_grade 80 40 20 = "C" ∧
    overall_score RE_EVALUATION_WEIGHTS 80 40 20 = 57 ∧
    calculate_grade (overall_score RE_EVALUATION_WEIGHTS 80 40 20) = "CC" := by
  have h54 : evaluate_patent_overall 80 40 20 = 54 := by
    norm_num [evaluate_patent_overall, overall_score, EVALUATION_WEIGHTS]
  have h57 : overall_score RE_EVALUATION_WEIGHTS 80 40 20 = 57 := by
    norm_num [overall_score, RE_EVALUATION_WEIGHTS]
  have hg : evaluate_patent_grade 80 40 20 = "미달" := by
    unfold evaluate_patent_grade
    rw [h54]
    norm_num [calculate_grade, GRADE_THRESHOLDS, grade_of]
  refine ⟨h54, by rw [h54]; norm_num, hg, by rw [hg]; decide, h57, ?_⟩
  rw [h57]
  norm_num [calculate_grade, GRADE_THRESHOLDS, grade_of]

/-- C3 amended: `evaluate_patent` computes the overall score only under the
normal weight set {0.45, 0.35, 0.20} and grades that score directly;
`RE_EVALUATION_WEIGHTS` and `RE_EVAL_THRESHOLD` are defined but never applied.
For tech=80, rights=40, market=20 the overall score is 54.0 — below the
re-evaluation threshold — and the reported grade is 미달; a pass under the
re-evaluation weight set would give 57.0, which grades CC. -/
theorem C3_no_reevaluation :
    (∀ t r m : ℚ, evaluate_patent_grade t r m =
      calculate_grade (overall_score EVALUATION_WEIGHTS t r m)) ∧
    evaluate_patent_overall 80 40 20 = 54 ∧
    evaluate_patent_overall 80 40 20 < RE_EVAL_THRESHOLD ∧
    evaluate_patent_grade 80 40 20 = "미달" ∧
    overall_score RE_EVALUATION_WEIGHTS 80 40 20 = 57 ∧
    calculate_grade (overall_score RE_EVALUATION_WEIGHTS 80 40 20) = "CC" := by
  have h54 : evaluate_patent_overall 80 40 20 = 54 := by
    norm_num [evaluate_patent_overall, overall_score, EVALUATION_WEIGHTS]
  have h57 : overall_score RE_EVALUATION_WEIGHTS 80 40 20 = 57 := by
    norm_num [overall_score, RE_EVALUATION_WEIGHTS]
  refine ⟨fun _ _ _ => rfl, h54, ?_, ?_, h57, ?_⟩
  · rw [h54]; norm_num [RE_EVAL_THRESHOLD]
  · unfold evaluate_patent_grade
    rw [h54]
    norm_num [calculate_grade, GRADE_THRESHOLDS, grade_of]
  · rw [h57]
    norm_num [calculate_grade, GRADE_THRESHOLDS, grade_of]

/-- C4 counterexample: the main-system market path blends
quantitative 0.3 / qualitative 0.7, so at quantitative=100, qualitative=0 it
returns 30, not the 70 the claimed 0.7/0.3 blend would give. -/
theorem C4_counterexample :
    main_market_final 100 0 = 30 ∧
    ¬ main_market_final 100 0 = 100 * (7/10) + 0 * (3/10) := by
  constructor <;> norm_num [main_market_final]

/-- C4 amended: the category blend is quantitative×0.6 + qualitative×0.4 for
Technology and quantitative×0.7 + qualitative×0.3 for Rights in both the
agent path and the main-system path; the Market blend is
quantitative×0.7 + qualitative×0.3 in the agent path but
quantitative×0.3 + qualitative×0.7 in the main-system path. -/
theorem C4_blend_ratios (quant qual : ℚ) :
    agent_tech_final quant qual = quant * (6/10) + qual * (4/10) ∧
    main_tech_final quant qual = quant * (6/10) + qual * (4/10) ∧
    agent_rights_final quant qual = quant * (7/10) + qual * (3/10) ∧
    main_rights_final quant qual = quant * (7/10) + qual * (3/10) ∧
    agent_market_final quant qual = quant * (7/10) + qual * (3/10) ∧
    main_market_final quant qual = quant * (3/10) + qual * (7/10) :=
  ⟨rfl, rfl, rfl, rfl, rfl, rfl⟩

/-- C5 counterexample: the metric adapter has no fallback — a record with an
empty inventors list receives inventor count 0 and the Market inventor
component score 0, not the count-1 score 40. -/
theorem C5_counterexample :
    market_X10 empty_patent = 0 ∧
    inventor_score (market_X10 empty_patent) = 0 ∧
    ¬ inventor_score (market_X10 empty_patent) = 40 := by
  refine ⟨rfl, ?_, ?_⟩ <;> decide

/-- C5 amended: the metric adapter sets the inventor-count metric to the size
of the inventors list with no fallback; a record whose extractor supplies an
empty inventors list receives inventor count 0 and the Market inventor
component score 0. -/
theorem C5_inventor_metric (p : PatentInfo) :
    market_X10 p = p.inventors.length ∧
    (p.inventors = [] →
      market_X10 p = 0 ∧ inventor_score (market_X10 p) = 0) := by
  refine ⟨rfl, fun h => ?_⟩
  have h0 : market_X10 p = 0 := by simp [market_X10, h]
  rw [h0]
  exact ⟨rfl, by decide⟩

/-- C5 witness: the amended statement instantiated at the empty record. -/
theorem C5_witness :
    market_X10 empty_patent = 0 ∧
    inventor_score (market_X10 empty_patent) = 0 :=
  (C5_inventor_metric empty_patent).2 rfl

/-- C6: the Technology scorer maps drawing count, title length and
claim-series count through the stated step tables (title ranges checked in
the stated priority order) and returns the weighted sum
drawing×0.4 + title×0.3 + series×0.3 rounded to one decimal; drawings=8,
title length=25 and 3 independent claims yield exactly 90.0. -/
theorem C6_tech_tables :
    (∀ n : ℕ, drawing_score n =
      if n ≥ 10 then 100 else if n ≥ 5 then 75 else if n ≥ 3 then 60
      else if n ≥ 1 then 40 else 0) ∧
    (∀ l : ℕ, title_score l =
      if 20 ≤ l ∧ l ≤ 80 then 100 else if 10 ≤ l ∧ l ≤ 100 then 70
      else if l > 0 then 40 else 0) ∧
    (∀ n : ℕ, series_score n =
      if n ≥ 3 then 100 else if n ≥ 2 then 70 else if n ≥ 1 then 40 else 0) ∧
    (∀ d t s : ℕ, tech_quant_total d t s =
      round1 (drawing_score d * (4/10) + title_score t * (3/10) +
        series_score s * (3/10))) ∧
    tech_quant_total 8 25 3 = 90 := by
  refine ⟨fun _ => rfl, fun _ => rfl, fun _ => rfl, fun _ _ _ => rfl, ?_⟩
  norm_num [tech_quant_total, drawing_score, title_score, series_score,
    round1, round_half_even]

/-- C8 counterexample: on the all-empty record the Market quantitative total
is 14.0, not 0 — the web-search grades default to Unknown, which the
applicant and technology-field curves score 20 each
(0×0.3 + 20×0.4 + 20×0.3 = 14). -/
theorem C8_counterexample :
    market_agent_quant empty_patent
        (web_search_applicant_grade empty_patent.applicant none)
        (web_search_tech_grade empty_patent.ipc_codes none) = 14 ∧
    ¬ market_agent_quant empty_patent
        (web_search_applicant_grade empty_patent.applicant none)
        (web_search_tech_grade empty_patent.ipc_codes none) = 0 := by
  have hg1 : web_search_applicant_grade empty_patent.applicant none =
      "Unknown" := by decide
  have hg2 : web_search_tech_grade empty_patent.ipc_codes none =
      "Unknown" := by decide
  have h1 : applicant_score "Unknown" = 20 := by decide
  have h2 : tech_field_score "Unknown" = 20 := by decide
  have h3 : inventor_score (market_X10 empty_patent) = 0 := by decide
  have h14 : market_agent_quant empty_patent
      (web_search_applicant_grade empty_patent.applicant none)
      (web_search_tech_grade empty_patent.ipc_codes none) = 14 := by
    simp only [market_agent_quant, hg1, hg2]
    norm_num [market_quant_total, h1, h2, h3, round1, round_half_even]
  exact ⟨h14, by rw [h14]; norm_num⟩

/-- C8 amended: on a record with zero claims, zero IPC codes, zero drawings,
empty title, empty inventors (no fallback exists) and empty applicant, the
scorers deterministically yield Technology quantitativeTotal 0, Rights
quantitativeTotal 11.0 (component minimums IPC 0, total-claims 20,
claim-length 20, hierarchy 0), and Market quantitativeTotal 14.0 (inventor 0
plus the two Unknown web-search grades at 20 each). -/
theorem C8_empty_input :
    tech_agent_quant empty_patent = 0 ∧
    rights_agent_quant empty_patent = 11 ∧
    market_agent_quant empty_patent
        (web_search_applicant_grade empty_patent.applicant none)
        (web_search_tech_grade empty_patent.ipc_codes none) = 14 ∧
    ipc_score 0 = 0 ∧ claims_count_score 0 = 20 ∧
    claims_length_score 0 = 20 ∧ hierarchy_score 0 0 = 0 ∧
    inventor_score 0 = 0 ∧ applicant_score "Unknown" = 20 ∧
    tech_field_score "Unknown" = 20 := by
  have htech : tech_agent_quant empty_patent = 0 := by
    have hc : classify_independent_claims [] = [] := by decide
    simp only [tech_agent_quant, empty_patent, hc]
    norm_num [tech_quant_total, drawing_score, title_score, series_score,
      round1, round_half_even]
  have hrights : rights_agent_quant empty_patent = 11 := by
    have hc : classify_claims [] = ([], []) := by decide
    have h1 : ipc_score 0 = 0 := by decide
    have h2 : claims_count_score 0 = 20 := by decide
    have h3 : hierarchy_score 0 0 = 0 := by decide
    have h4 : claims_length_score 0 = 20 := by norm_num [claims_length_score]
    have h5 : independent_avg_length [] = 0 := by
      simp [independent_avg_length]
    have h6 : round1 0 = 0 := by norm_num [round1, round_half_even]
    simp only [rights_agent_quant, empty_patent, hc, h5, h6]
    norm_num [rights_quant_total, h1, h2, h3, h4, round1, round_half_even]
  have hmarket : market_agent_quant empty_patent
      (web_search_applicant_grade empty_patent.applicant none)
      (web_search_tech_grade empty_patent.ipc_codes none) = 14 := by
    have hg1 : web_search_applicant_grade empty_patent.applicant none =
        "Unknown" := by decide
    have hg2 : web_search_tech_grade empty_patent.ipc_codes none =
        "Unknown" := by decide
    have h1 : applicant_score "Unknown" = 20 := by decide
    have h2 : tech_field_score "Unknown" = 20 := by decide
    have h3 : inventor_score (market_X10 empty_patent) = 0 := by decide
    simp only [market_agent_quant, hg1, hg2]
    norm_num [market_quant_total, h1, h2, h3, round1, round_half_even]
  refine ⟨htech, hrights, hmarket, by decide, by decide, ?_, by decide,
    by decide, by decide, by decide⟩
  norm_num [claims_length_score]

/-- C1: the claim classifier returns a pair (independent, dependent) whose
multiset union equals the input list, so the lengths add up to the input
length; independent is non-empty whenever the input is; when the
dependency-phrase heuristic (applied to the first 50 characters) marks every
claim dependent, the first claim is force-reclassified independent and the
remainder become dependent; the technology-side classifier likewise returns
at least one claim for a non-empty input. -/
theorem C1_classifier_preservation (claims : List String) :
    ((classify_claims claims).1 ++ (classify_claims claims).2).Perm claims ∧
    (classify_claims claims).1.length + (classify_claims claims).2.length =
      claims.length ∧
    (claims ≠ [] → (classify_claims claims).1 ≠ []) ∧
    ((∀ c ∈ claims, is_dependent_claim c = true) → claims ≠ [] →
      classify_claims claims = (claims.take 1, claims.drop 1)) ∧
    (claims ≠ [] → classify_independent_claims claims ≠ []) := by
  have hperm := classify_claims_perm claims
  refine ⟨hperm, ?_, classify_claims_fst_ne_nil claims,
    fun hall h => classify_claims_all_dependent claims h hall, ?_⟩
  · have := hperm.length_eq
    simpa [List.length_append] using this
  · intro h
    unfold classify_independent_claims
    by_cases hb : (claims.filter fun c => !is_dependent_claim c).isEmpty
    · simp only [hb, if_true]
      cases claims with
      | nil => exact absurd rfl h
      | cons a t => simp
    · have hb' : (claims.filter fun c => !is_dependent_claim c).isEmpty =
          false := by simpa using hb
      simp only [hb', Bool.false_eq_true, if_false]
      simpa [List.isEmpty_iff] using hb

/-- C1 witness: on a two-element list in which every claim carries a
dependency phrase, the first claim is forced independent and the second
stays dependent. -/
theorem C1_witness :
    classify_claims ["청구항 1에 있어서", "제 2 항에 있어서"] =
      (["청구항 1에 있어서"], ["제 2 항에 있어서"]) := by
  have h := (C1_classifier_preservation
    ["청구항 1에 있어서", "제 2 항에 있어서"]).2.2.2.1 (by decide) (by decide)
  simpa using h

/-- C7 counterexample: the title-length curve is not monotone
non-decreasing — a title of 80 characters scores 100 while a longer title of
81 characters scores only 70. -/
theorem C7_counterexample :
    title_score 80 = 100 ∧ title_score 81 = 70 ∧
    ¬ title_score 80 ≤ title_score 81 := by
  refine ⟨by decide, by decide, by decide⟩

/-- C7 amended: every component scoring curve except the title-length curve
— drawing count, claim-series count, IPC count, total-claims count,
independent-claim average length, the hierarchy curve in the dependent count
(hence in the ratio) for a fixed independent count, and inventor count — is
monotone non-decreasing; the title-length curve drops from 100 to 70 above
80 characters and to 40 above 100. -/
theorem C7_monotone_except_title :
    (∀ a b : ℕ, a ≤ b → drawing_score a ≤ drawing_score b) ∧
    (∀ a b : ℕ, a ≤ b → series_score a ≤ series_score b) ∧
    (∀ a b : ℕ, a ≤ b → ipc_score a ≤ ipc_score b) ∧
    (∀ a b : ℕ, a ≤ b → claims_count_score a ≤ claims_count_score b) ∧
    (∀ a b : ℚ, a ≤ b → claims_length_score a ≤ claims_length_score b) ∧
    (∀ i a b : ℕ, a ≤ b → hierarchy_score i a ≤ hierarchy_score i b) ∧
    (∀ a b : ℕ, a ≤ b → inventor_score a ≤ inventor_score b) ∧
    title_score 80 = 100 ∧ title_score 81 = 70 ∧ title_score 101 = 40 := by
  refine ⟨?_, ?_, ?_, ?_, ?_, ?_, ?_, by decide, by decide, by decide⟩
  · intro a b hab
    unfold drawing_score
    split_ifs
    all_goals try norm_num
    all_goals omega
  · intro a b hab
    unfold series_score
    split_ifs
    all_goals try norm_num
    all_goals omega
  · intro a b hab
    unfold ipc_score
    split_ifs
    all_goals try norm_num
    all_goals omega
  · intro a b hab
    unfold claims_count_score
    split_ifs
    all_goals try norm_num
    all_goals omega
  · intro a b hab
    unfold claims_length_score
    split_ifs
    all_goals try norm_num
    all_goals linarith
  · intro i a b hab
    unfold hierarchy_score
    by_cases hi : i > 0
    · have hipos : (0 : ℚ) < (i : ℚ) := by exact_mod_cast hi
      have hab' : (a : ℚ) ≤ (b : ℚ) := by exact_mod_cast hab
      have hr : (a : ℚ) / (i : ℚ) ≤ (b : ℚ) / (i : ℚ) :=
        (div_le_div_iff_of_pos_right hipos).mpr hab'
      simp only [hi, if_true]
      split_ifs
      all_goals try norm_num
      all_goals linarith
    · simp [hi]
  · intro a b hab
    unfold inventor_score
    split_ifs
    all_goals try norm_num
    all_goals omega

/-- C7 witness: the drawing-count monotonicity instantiated at 3 ≤ 10. -/
theorem C7_witness :
    (3 : ℕ) ≤ 10 ∧ drawing_score 3 ≤ drawing_score 10 :=
  ⟨by norm_num, C7_monotone_except_title.1 3 10 (by norm_num)⟩

lemma round1_mem (q : ℚ) (h0 : 0 ≤ q) (h1 : q ≤ 100) :
    0 ≤ round1 q ∧ round1 q ≤ 100 := by
  constructor
  · have := round1_ge q 0 (by exact_mod_cast h0)
    simpa using this
  · have := round1_le q 100 (by push_cast; linarith)
    simpa using this

/-- C9: for every metric set of non-negative inputs, every component score of
the Technology, Rights and Market scorers lies in [0,100], and each category
quantitative total (the weighted sum rounded to one decimal) lies in
[0,100]. -/
theorem C9_scores_bounded :
    (∀ n : ℕ, 0 ≤ drawing_score n ∧ drawing_score n ≤ 100) ∧
    (∀ n : ℕ, 0 ≤ title_score n ∧ title_score n ≤ 100) ∧
    (∀ n : ℕ, 0 ≤ series_score n ∧ series_score n ≤ 100) ∧
    (∀ n : ℕ, 0 ≤ ipc_score n ∧ ipc_score n ≤ 100) ∧
    (∀ n : ℕ, 0 ≤ claims_count_score n ∧ claims_count_score n ≤ 100) ∧
    (∀ q : ℚ, 0 ≤ q → 0 ≤ claims_length_score q ∧ claims_length_score q ≤ 100) ∧
    (∀ i d : ℕ, 0 ≤ hierarchy_score i d ∧ hierarchy_score i d ≤ 100) ∧
    (∀ n : ℕ, 0 ≤ inventor_score n ∧ inventor_score n ≤ 100) ∧
    (∀ g : String, 0 ≤ applicant_score g ∧ applicant_score g ≤ 100) ∧
    (∀ g : String, 0 ≤ tech_field_score g ∧ tech_field_score g ≤ 100) ∧
    (∀ d t s : ℕ, 0 ≤ tech_quant_total d t s ∧ tech_quant_total d t s ≤ 100) ∧
    (∀ ipc tc : ℕ, ∀ len : ℚ, 0 ≤ len → ∀ i d : ℕ,
      0 ≤ rights_quant_total ipc tc len i d ∧
      rights_quant_total ipc tc len i d ≤ 100) ∧
    (∀ n : ℕ, ∀ ag tg : String,
      0 ≤ market_quant_total n ag tg ∧ market_quant_total n ag tg ≤ 100) := by
  refine ⟨drawing_score_mem, title_score_mem, series_score_mem, ipc_score_mem,
    fun n => ⟨by linarith [(claims_count_score_mem n).1],
      (claims_count_score_mem n).2⟩,
    fun q _ => ⟨by linarith [(claims_length_score_mem q).1],
      (claims_length_score_mem q).2⟩,
    hierarchy_score_mem, inventor_score_mem,
    fun g => ⟨by linarith [(applicant_score_mem g).1], (applicant_score_mem g).2⟩,
    fun g => ⟨by linarith [(tech_field_score_mem g).1],
      (tech_field_score_mem g).2⟩, ?_, ?_, ?_⟩
  · intro d t s
    have h1 := drawing_score_mem d
    have h2 := title_score_mem t
    have h3 := series_score_mem s
    unfold tech_quant_total
    exact round1_mem _ (by linarith [h1.1, h2.1, h3.1])
      (by linarith [h1.2, h2.2, h3.2])
  · intro ipc tc len _ i d
    have h1 := ipc_score_mem ipc
    have h2 := claims_count_score_mem tc
    have h3 := claims_length_score_mem len
    have h4 := hierarchy_score_mem i d
    unfold rights_quant_total
    exact round1_mem _ (by linarith [h1.1, h2.1, h3.1, h4.1])
      (by linarith [h1.2, h2.2, h3.2, h4.2])
  · intro n ag tg
    have h1 := inventor_score_mem n
    have h2 := applicant_score_mem ag
    have h3 := tech_field_score_mem tg
    unfold market_quant_total
    exact round1_mem _ (by linarith [h1.1, h2.1, h3.1])
      (by linarith [h1.2, h2.2, h3.2])

/-- C9 witness: the length-curve and Rights-total bounds instantiated at the
all-zero metric set. -/
theorem C9_witness :
    (0 ≤ claims_length_score 0 ∧ claims_length_score 0 ≤ 100) ∧
    (0 ≤ rights_quant_total 0 0 0 0 0 ∧ rights_quant_total 0 0 0 0 0 ≤ 100) :=
  ⟨C9_scores_bounded.2.2.2.2.2.1 0 (by norm_num),
   C9_scores_bounded.2.2.2.2.2.2.2.2.2.2.2.1 0 0 0 (by norm_num) 0 0⟩

/-- C10: the Rights quantitative total is at least 11.0 for every metric set
(the total-claims and length curves floor at 20 with weights 0.30 and 0.25);
the defensive hierarchy-score-0 branch fires exactly when the independent
count is 0; when the metrics come from a non-empty claims list the
classifier guarantees at least one independent claim, so the hierarchy score
is at least 30 and the Rights quantitative total is at least 17.0. -/
theorem C10_rights_quant_floor :
    (∀ ipc tc : ℕ, ∀ len : ℚ, ∀ i d : ℕ,
      11 ≤ rights_quant_total ipc tc len i d) ∧
    (∀ d : ℕ, hierarchy_score 0 d = 0) ∧
    (∀ claims : List String, claims ≠ [] →
      30 ≤ hierarchy_score (classify_claims claims).1.length
        (classify_claims claims).2.length) ∧
    (∀ p : PatentInfo, p.claims ≠ [] → 17 ≤ rights_agent_quant p) := by
  refine ⟨rights_quant_total_ge_11, ?_, ?_, ?_⟩
  · intro d
    unfold hierarchy_score
    simp
  · intro claims h
    exact hierarchy_score_pos_lb _ _
      (List.length_pos.mpr (classify_claims_fst_ne_nil claims h))
  · intro p h
    have hpos : 0 < (classify_claims p.claims).1.length :=
      List.length_pos.mpr (classify_claims_fst_ne_nil p.claims h)
    have h1 := (ipc_score_mem p.ipc_codes.length).1
    have h2 := (claims_count_score_mem p.claims_count).1
    have h3 := (claims_length_score_mem
      (round1 (independent_avg_length (classify_claims p.claims).1))).1
    have h4 := hierarchy_score_pos_lb (classify_claims p.claims).1.length
      (classify_claims p.claims).2.length hpos
    unfold rights_agent_quant rights_quant_total
    have hsum : (17 : ℚ) ≤
        ipc_score p.ipc_codes.length * (25/100) +
        claims_count_score p.claims_count * (30/100) +
        claims_length_score
          (round1 (independent_avg_length (classify_claims p.claims).1)) *
          (25/100) +
        hierarchy_score (classify_claims p.claims).1.length
          (classify_claims p.claims).2.length * (20/100) := by
      linarith
    have := round1_ge _ 17 hsum
    exact_mod_cast this

/-- C10 witness: the 17-point floor instantiated at a record with a single
independent claim, and the 11-point floor at the all-zero metric set. -/
theorem C10_witness :
    11 ≤ rights_quant_total 0 0 0 0 0 ∧
    17 ≤ rights_agent_quant ⟨"", ["펌프"], 0, 0, [], [], ""⟩ :=
  ⟨C10_rights_quant_floor.1 0 0 0 0 0,
   C10_rights_quant_floor.2.2.2 ⟨"", ["펌프"], 0, 0, [], [], ""⟩ (by decide)⟩

end PatentEval
